import Mathlib

/-!
Verification of the caching and quota-governance core of the BaseSecu
vulnerability scanner against its specification.

The Python source is embedded shallowly:

* `APIRateLimiter` together with `can_make_request` and `record_call` embeds
  the class of the same name in `src/matching/cpe_matcher.py`.  The wall
  clock `time.time()` is passed explicitly as an integer `now`; the two
  `collections.deque` queues are lists with the oldest timestamp first
  (append at the tail, pop at the head).  The lazy plan probe `check_plan`
  resolves `is_paid` from an external network call, so states are modelled
  with the probe already resolved into the `is_paid` field.
-/

set_option autoImplicit false

/-- State of `APIRateLimiter` (`src/matching/cpe_matcher.py`): the plan tier,
the two sliding-window queues of call timestamps (oldest first), the two
free-tier ceilings set in `__init__` (20 per day, 5 per minute), and the
running call counter. -/
structure APIRateLimiter where
  is_paid : Bool
  calls_today : List Int
  calls_last_minute : List Int
  daily_limit : Nat
  minute_limit : Nat
  total_calls : Nat
  deriving DecidableEq

/-- A limiter as built by `APIRateLimiter.__init__` — empty queues, limits
20/day and 5/minute, zero calls — with the plan probe already resolved to
`paid`. -/
def initLimiter (paid : Bool) : APIRateLimiter :=
  { is_paid := paid, calls_today := [], calls_last_minute := [],
    daily_limit := 20, minute_limit := 5, total_calls := 0 }

/-- The eviction loops `while q and q[0] < cutoff: q.popleft()` used by
`can_make_request`: drop the leading timestamps strictly below the cutoff. -/
def evictOlder (cutoff : Int) (q : List Int) : List Int :=
  q.dropWhile (fun ts => decide (ts < cutoff))

/-- Embeds `APIRateLimiter.can_make_request`: the paid tier returns `True`
immediately without touching the queues; otherwise both queues are evicted
against their horizons (24 hours and 60 seconds) in place, and the surviving
counts are compared to the daily and minute limits.  The boolean result is
returned together with the (possibly mutated) limiter state. -/
def can_make_request (s : APIRateLimiter) (now : Int) : Bool × APIRateLimiter :=
  if s.is_paid then (true, s)
  else
    let ct := evictOlder (now - 24 * 3600) s.calls_today
    let cm := evictOlder (now - 60) s.calls_last_minute
    let s' : APIRateLimiter := { s with calls_today := ct, calls_last_minute := cm }
    if s.daily_limit ≤ ct.length then (false, s')
    else if s.minute_limit ≤ cm.length then (false, s')
    else (true, s')

/-- Embeds `APIRateLimiter.record_call`: appends `now` to both queues and
increments `total_calls`, with no tier check and no eviction. -/
def record_call (s : APIRateLimiter) (now : Int) : APIRateLimiter :=
  { s with calls_today := s.calls_today ++ [now],
           calls_last_minute := s.calls_last_minute ++ [now],
           total_calls := s.total_calls + 1 }

/-- The limiter obtained from a fresh free-tier limiter by `n` consecutive
`record_call` invocations, all at time `t`. -/
def afterCalls : Nat → Int → APIRateLimiter
  | 0, _ => initLimiter false
  | n + 1, t => record_call (afterCalls n t) t

/-- A CVE object as consumed from the external client `nvdlib.searchCVE`
(`src/caching/cache_db.py`): the list of description values, the CVE
identifier, and the optional `published` attribute. -/
structure CVE where
  descriptions : List String
  id : String
  published : Option String
  deriving DecidableEq

/-- One row of the `vulnerabilities` table of `src/caching/cache_db.py`. -/
structure VulnRow where
  cpe_string : String
  cve_id : String
  description : String
  published_date : Option String
  deriving DecidableEq

/-- The durable SQLite store of `src/caching/cache_db.py` (current schema,
with the `published_date` column): the `cpe_index` table (`cpe_string`
primary key plus `last_fetched`) and the `vulnerabilities` table, both as
lists of rows in insertion order. -/
structure CacheDB where
  cpe_index : List (String × String)
  vulnerabilities : List VulnRow
  deriving DecidableEq

/-- SQLite comparison behind `ORDER BY published_date DESC`: NULL sorts
below every text value; text compares bytewise, modelled by the string
order (the two agree on ASCII data such as ISO dates). -/
def sqliteLt : Option String → Option String → Bool
  | none, none => false
  | none, some _ => true
  | some _, none => false
  | some a, some b => decide (a < b)

/-- Insert one row into a list sorted by `published_date` descending,
placing it before the first strictly smaller key. -/
def insertDesc (v : VulnRow) : List VulnRow → List VulnRow
  | [] => [v]
  | w :: ws =>
    if sqliteLt v.published_date w.published_date then w :: insertDesc v ws
    else v :: w :: ws

/-- The `ORDER BY published_date DESC` read of the cache-hit path of
`get_vulnerabilities`, modelled as a stable descending sort (SQLite fixes
only the key order; the order among equal keys is modelled as stable). -/
def orderByPublishedDesc : List VulnRow → List VulnRow
  | [] => []
  | v :: vs => insertDesc v (orderByPublishedDesc vs)

/-- The row built and inserted for one CVE on the cache-miss path of
`get_vulnerabilities`: first description value or `"No description"`, and
the `published` attribute when the object carries one. -/
def rowOfCVE (cpe_string : String) (cve : CVE) : VulnRow :=
  { cpe_string := cpe_string, cve_id := cve.id,
    description := cve.descriptions.headD "No description",
    published_date := cve.published }

/-- Projection of a stored row to the `(cve_id, description,
published_date)` triple that `get_vulnerabilities` returns. -/
def projRow (v : VulnRow) : String × String × Option String :=
  (v.cve_id, v.description, v.published_date)

/-- Embeds `get_vulnerabilities` of `src/caching/cache_db.py` over a stub
external client `nvd` standing for `nvdlib.searchCVE`; a raised exception
is an `Except.error`.  Returns the call outcome (a raised error propagates
to the caller), the durable store after the call, and how often the
external client was invoked.  On a hit (the CPE has a `cpe_index` row) the
stored rows for the CPE are returned ordered by `published_date` descending
and the store is untouched; on a miss the client is queried, the index row
and one row per CVE are inserted and committed together — `db.commit()`
runs only after every insert, a client error is raised before any insert,
and an uncommitted transaction is discarded when the connection is closed
in the `finally` block — and the extracted triples are returned. -/
def get_vulnerabilities (db : CacheDB) (nvd : String → Except String (List CVE))
    (now : String) (cpe_string : String) :
    Except String (List (String × String × Option String)) × CacheDB × Nat :=
  if db.cpe_index.any (fun r => r.1 == cpe_string) then
    let rows := db.vulnerabilities.filter (fun v => v.cpe_string == cpe_string)
    (.ok ((orderByPublishedDesc rows).map projRow), db, 0)
  else
    match nvd cpe_string with
    | .error e => (.error e, db, 1)
    | .ok cve_list =>
      let newRows := cve_list.map (rowOfCVE cpe_string)
      (.ok (newRows.map projRow),
       { cpe_index := db.cpe_index ++ [(cpe_string, now)],
         vulnerabilities := db.vulnerabilities ++ newRows }, 1)

/-- Joint outcome of two immediately successive `get_vulnerabilities` calls
for the same CPE on a fresh store: the first call invokes the external
client once, the second invokes it zero times, leaves the store as the
first call left it, and returns a permutation of the first call's rows. -/
def cacheAsideRoundTrip (nvd : String → Except String (List CVE))
    (cpe_string now1 now2 : String) : Prop :=
  let step1 := get_vulnerabilities ⟨[], []⟩ nvd now1 cpe_string
  let step2 := get_vulnerabilities step1.2.1 nvd now2 cpe_string
  step1.2.2 = 1 ∧ step2.2.2 = 0 ∧ step2.2.1 = step1.2.1
    ∧ ∃ l1 l2, step1.1 = .ok l1 ∧ step2.1 = .ok l2 ∧ l2.Perm l1

/-- Stub external client returning two CVEs whose publication dates are in
ascending order. -/
def nvdTwoCves : String → Except String (List CVE) :=
  fun _ => .ok [⟨["first flaw"], "CVE-2020-1111", some "2020-01-01"⟩,
                ⟨["second flaw"], "CVE-2021-2222", some "2021-01-01"⟩]

/-- Stub external client that always fails transiently (a 503-style
exception raised by the library). -/
def nvdFailing : String → Except String (List CVE) :=
  fun _ => .error "Temporary failure"

/-- Stub external client returning no CVEs. -/
def nvdEmpty : String → Except String (List CVE) :=
  fun _ => .ok []

/-- A cache entry for one CPE as stored in `machines/cpe_cache.json`
(`src/pkg_finder.py`): either the current object form — a JSON object whose
`cpe` and `valid` keys may each be absent (`none`) — or the legacy bare
string form. -/
inductive CpeEntry where
  | objEntry (cpe : Option String) (valid : Option Bool)
  | strEntry (s : String)
  deriving DecidableEq

/-- The parsed content of `machines/cpe_cache.json`: a JSON object mapping
component names to entry lists, modelled as an association list in key
insertion order (Python dicts preserve insertion order, and assignment to
an existing key keeps its position). -/
abbrev CpeCache := List (String × List CpeEntry)

/-- Python dict assignment `cache_data[package] = entries`: replace the
value in place when the key exists, append the pair otherwise. -/
def setKey : CpeCache → String → List CpeEntry → CpeCache
  | [], k, v => [(k, v)]
  | (k', v') :: rest, k, v =>
    if k' == k then (k', v) :: rest else (k', v') :: setKey rest k v

/-- Python `cache_data.get(package_name, [])`. -/
def getKey (cache : CpeCache) (k : String) : List CpeEntry :=
  ((cache.find? (fun p => p.1 == k)).map Prod.snd).getD []

/-- Embeds `get_cached_cpes` of `src/pkg_finder.py` on a readable cache:
object entries contribute their `cpe` value (a missing `cpe` key reads as
`""`) whenever `valid` holds (a missing `valid` key reads as `True` for
backward compatibility), and legacy bare strings always contribute
themselves, in entry order. -/
def get_cached_cpes (cache : CpeCache) (package_name : String) : List String :=
  (getKey cache package_name).filterMap (fun entry =>
    match entry with
    | .objEntry cpe valid => if valid.getD true then some (cpe.getD "") else none
    | .strEntry s => some s)

/-- Embeds `cache_cpes` of `src/pkg_finder.py`: for every supplied package
the cache entry is overwritten with the supplied CPE list, each CPE wrapped
as `{"cpe": cpe, "valid": True}`. -/
def cache_cpes (cache : CpeCache) (packages_cpes : List (String × List String)) : CpeCache :=
  packages_cpes.foldl
    (fun acc p => setKey acc p.1 (p.2.map (fun c => CpeEntry.objEntry (some c) (some true))))
    cache

/-- Action of `mark_cpe_invalid` on one entry: an object entry whose `cpe`
key equals the given string gets `valid` set to `False` (a missing `cpe`
key compares unequal, as Python `None == cpe_string` does); a bare string
fails the `isinstance(cpe_entry, dict)` test and is left untouched. -/
def invalidateEntry (cpe_string : String) : CpeEntry → CpeEntry
  | .objEntry cpe valid =>
    if cpe == some cpe_string then .objEntry cpe (some false)
    else .objEntry cpe valid
  | .strEntry s => .strEntry s

/-- Embeds `mark_cpe_invalid` of `src/pkg_finder.py`: the outer loop visits
every component's entry list (all values are lists here, so the
`isinstance(cpe_list, list)` guard always passes) and applies the per-entry
invalidation. -/
def mark_cpe_invalid (cache : CpeCache) (cpe_string : String) : CpeCache :=
  cache.map (fun p => (p.1, p.2.map (invalidateEntry cpe_string)))

/-- Embeds `get_packages_needing_cpe_generation` of `src/pkg_finder.py`:
keep exactly the packages whose cached CPE list is empty. -/
def get_packages_needing_cpe_generation (cache : CpeCache) (packages : List String) : List String :=
  packages.filter (fun package => (get_cached_cpes cache package).isEmpty)

/-- Outcome of reading `machines/{machine}/installed_packages.json` in
`get_new_packages`: the file may be absent (`FileNotFoundError`), present
but not valid JSON, or parse to the previous package list. -/
inductive SnapshotRead where
  | fileMissing
  | malformedJson
  | parsed (pkgs : List String)
  deriving DecidableEq

/-- Embeds `get_new_packages` of `src/pkg_finder.py`.  Only
`FileNotFoundError` is caught, returning the whole current list (and no
removed packages); a JSON decode failure propagates out of the function as
an exception, modelled as `Except.error`.  The source materialises
`set(current) - set(previous)` and its converse; set iteration order is
unspecified in Python and modelled as first-occurrence order of the
distinct elements.  The pair is (new packages, removed packages); the
source returns only the first component but computes and logs both. -/
def get_new_packages (snapshot : SnapshotRead)
    (current_installed_packages : List String) :
    Except String (List String × List String) :=
  match snapshot with
  | .fileMissing => .ok (current_installed_packages, [])
  | .malformedJson => .error "json.decoder.JSONDecodeError"
  | .parsed previous =>
    .ok (current_installed_packages.eraseDups.filter
           (fun p => ! previous.contains p),
         previous.eraseDups.filter
           (fun p => ! current_installed_packages.contains p))

theorem afterCalls_five (t : Int) :
    afterCalls 5 t =
      { is_paid := false, calls_today := [t, t, t, t, t],
        calls_last_minute := [t, t, t, t, t],
        daily_limit := 20, minute_limit := 5, total_calls := 5 } := rfl

theorem dropWhile_five (p : Int → Bool) (t : Int) :
    List.dropWhile p [t, t, t, t, t] = if p t then [] else [t, t, t, t, t] := by
  cases hp : p t <;> simp [List.dropWhile_cons, hp]

theorem dropWhile_self (p : Int → Bool) (l : List Int) :
    List.dropWhile p (List.dropWhile p l) = List.dropWhile p l := by
  induction l with
  | nil => rfl
  | cons a l ih => cases hp : p a <;> simp [List.dropWhile_cons, hp, ih]

/-- C3: on the free tier with minute limit 5, after five `record_call`
invocations at time `t`, `can_make_request` at time `now` returns `false`
exactly as long as at most 60 seconds have elapsed (`now ≤ t + 60`) and
`true` once more than 60 seconds have elapsed; on a detected paid tier it
returns `true` regardless of the recorded call volume. -/
theorem c3_minute_window_and_paid_tier (t now : Int) :
    ((can_make_request (afterCalls 5 t) now).1 = true ↔ t + 60 < now)
    ∧ (∀ (s : APIRateLimiter) (m : Int), s.is_paid = true →
        (can_make_request s m).1 = true) := by
  constructor
  · rw [afterCalls_five]
    unfold can_make_request evictOlder
    by_cases h1 : t < now - 86400 <;> by_cases h2 : t < now - 60 <;>
      simp [dropWhile_five, h1, h2] <;> omega
  · intro s m hp
    simp [can_make_request, hp]

/-- C4 counterexample: `can_make_request` is not a pure read — on a state
whose minute queue holds a stale timestamp it mutates the limiter by
evicting that timestamp. -/
theorem c4_counterexample_eviction_mutates :
    (can_make_request
      { is_paid := false, calls_today := [0], calls_last_minute := [0],
        daily_limit := 20, minute_limit := 5, total_calls := 1 } 100).2 ≠
      { is_paid := false, calls_today := [0], calls_last_minute := [0],
        daily_limit := 20, minute_limit := 5, total_calls := 1 } := by decide

/-- C4 amended: `can_make_request` does mutate the state (it evicts expired
timestamps from both queues), but at a fixed time it is idempotent: a second
call without an intervening `record_call` returns the same boolean and
leaves the state exactly as the first call left it. -/
theorem c4_amended_idempotent (s : APIRateLimiter) (now : Int) :
    can_make_request (can_make_request s now).2 now = can_make_request s now := by
  by_cases hp : s.is_paid
  · simp [can_make_request, hp]
  · simp only [can_make_request, evictOlder, hp, if_false, Bool.false_eq_true]
    split_ifs with h1 h2 <;>
      simp_all [dropWhile_self] <;> omega

/-- C5 counterexample: `record_call` on a paid-tier governor does not leave
the sliding-window queues unchanged — it appends the timestamp to both. -/
theorem c5_counterexample_paid_record_appends :
    ¬ ((record_call (initLimiter true) 0).calls_today =
          (initLimiter true).calls_today
        ∧ (record_call (initLimiter true) 0).calls_last_minute =
          (initLimiter true).calls_last_minute) := by decide

/-- C5 amended: on a detected paid tier the quota check short-circuits to
always-allow and skips queue maintenance (the state is returned untouched),
but `record_call` appends the current timestamp to both queues
unconditionally — the paid tier does not skip the recording. -/
theorem c5_amended_paid_check_only (s : APIRateLimiter) (now : Int)
    (hpaid : s.is_paid = true) :
    can_make_request s now = (true, s)
    ∧ (record_call s now).calls_today = s.calls_today ++ [now]
    ∧ (record_call s now).calls_last_minute = s.calls_last_minute ++ [now] := by
  refine ⟨?_, rfl, rfl⟩
  simp [can_make_request, hpaid]

theorem c5_witness :
    can_make_request (initLimiter true) 7 = (true, initLimiter true)
    ∧ (record_call (initLimiter true) 7).calls_today =
        (initLimiter true).calls_today ++ [7]
    ∧ (record_call (initLimiter true) 7).calls_last_minute =
        (initLimiter true).calls_last_minute ++ [7] :=
  c5_amended_paid_check_only (initLimiter true) 7 rfl

theorem insertDesc_perm (v : VulnRow) (l : List VulnRow) :
    (insertDesc v l).Perm (v :: l) := by
  induction l with
  | nil => simp [insertDesc]
  | cons w ws ih =>
    by_cases hc : sqliteLt v.published_date w.published_date = true
    · simp only [insertDesc, hc, if_true]
      exact ((ih.cons w).trans (List.Perm.swap v w ws))
    · simp [insertDesc, hc]

theorem orderByPublishedDesc_perm (l : List VulnRow) :
    (orderByPublishedDesc l).Perm l := by
  induction l with
  | nil => simp [orderByPublishedDesc]
  | cons v vs ih =>
    exact (insertDesc_perm v (orderByPublishedDesc vs)).trans (ih.cons v)

/-- C1 counterexample: with a stub client returning two CVEs whose
publication dates ascend, the second `get_vulnerabilities` call on the
same fresh store returns the rows in the opposite order of the first call
(the cache-hit read sorts by `published_date` descending), so the two
results are not identical. -/
theorem c1_counterexample_reordered_results :
    (get_vulnerabilities ⟨[], []⟩ nvdTwoCves "T1" "cpe:2.3:a:v:p").1 =
      .ok [("CVE-2020-1111", "first flaw", some "2020-01-01"),
           ("CVE-2021-2222", "second flaw", some "2021-01-01")]
    ∧ (get_vulnerabilities
        (get_vulnerabilities ⟨[], []⟩ nvdTwoCves "T1" "cpe:2.3:a:v:p").2.1
        nvdTwoCves "T2" "cpe:2.3:a:v:p").1 =
      .ok [("CVE-2021-2222", "second flaw", some "2021-01-01"),
           ("CVE-2020-1111", "first flaw", some "2020-01-01")]
    ∧ ([("CVE-2020-1111", "first flaw", some "2020-01-01"),
        ("CVE-2021-2222", "second flaw", some "2021-01-01")] :
          List (String × String × Option String)) ≠
      [("CVE-2021-2222", "second flaw", some "2021-01-01"),
       ("CVE-2020-1111", "first flaw", some "2020-01-01")] := by
  refine ⟨rfl, ?_, by decide⟩
  simp [get_vulnerabilities, nvdTwoCves, orderByPublishedDesc, insertDesc,
        sqliteLt, projRow, rowOfCVE]
  decide

/-- C1 amended: on a fresh store, a `get_vulnerabilities` call followed
immediately by a second call for the same CPE issues no second external
query — the stub client is invoked exactly once across the two calls — and
the second call returns the same result set as the first up to order (the
cache-hit read returns it sorted by `published_date` descending), leaving
the store unchanged. -/
theorem c1_amended_single_query_same_multiset
    (nvd : String → Except String (List CVE)) (cpe_string now1 now2 : String)
    (cves : List CVE) (hok : nvd cpe_string = .ok cves) :
    cacheAsideRoundTrip nvd cpe_string now1 now2 := by
  have h1 : get_vulnerabilities ⟨[], []⟩ nvd now1 cpe_string =
      (.ok ((cves.map (rowOfCVE cpe_string)).map projRow),
       ⟨[(cpe_string, now1)], cves.map (rowOfCVE cpe_string)⟩, 1) := by
    simp [get_vulnerabilities, hok]
  have hfilter : (cves.map (rowOfCVE cpe_string)).filter
      (fun v => v.cpe_string == cpe_string) = cves.map (rowOfCVE cpe_string) := by
    rw [List.filter_eq_self]
    intro v hv
    rcases List.mem_map.mp hv with ⟨c, _, rfl⟩
    simp [rowOfCVE]
  have h2 : get_vulnerabilities
      (⟨[(cpe_string, now1)], cves.map (rowOfCVE cpe_string)⟩ : CacheDB)
      nvd now2 cpe_string =
      (.ok ((orderByPublishedDesc (cves.map (rowOfCVE cpe_string))).map projRow),
       ⟨[(cpe_string, now1)], cves.map (rowOfCVE cpe_string)⟩, 0) := by
    simp [get_vulnerabilities, hfilter]
  unfold cacheAsideRoundTrip
  simp only [h1, h2]
  exact ⟨trivial, trivial, trivial,
    (cves.map (rowOfCVE cpe_string)).map projRow,
    (orderByPublishedDesc (cves.map (rowOfCVE cpe_string))).map projRow,
    rfl, rfl,
    (orderByPublishedDesc_perm (cves.map (rowOfCVE cpe_string))).map projRow⟩

theorem c1_witness :
    nvdEmpty "cpe:2.3:a:v:p" = .ok []
    ∧ cacheAsideRoundTrip nvdEmpty "cpe:2.3:a:v:p" "T1" "T2" :=
  ⟨rfl, c1_amended_single_query_same_multiset nvdEmpty "cpe:2.3:a:v:p" "T1" "T2" [] rfl⟩

/-- C2: when the external query raises on the cache-miss path, the raised
error propagates and the durable store is left exactly unchanged — no
`cpe_index` row and no `vulnerabilities` rows for that CPE are committed,
so the failed call cannot later be misread as a cached empty result. -/
theorem c2_error_leaves_store_unchanged (db : CacheDB)
    (nvd : String → Except String (List CVE)) (now cpe_string e : String)
    (hmiss : db.cpe_index.any (fun r => r.1 == cpe_string) = false)
    (herr : nvd cpe_string = .error e) :
    get_vulnerabilities db nvd now cpe_string = (.error e, db, 1) := by
  simp [get_vulnerabilities, hmiss, herr]

theorem c2_witness :
    (⟨[], []⟩ : CacheDB).cpe_index.any (fun r => r.1 == "cpe:2.3:a:v:p") = false
    ∧ nvdFailing "cpe:2.3:a:v:p" = .error "Temporary failure"
    ∧ get_vulnerabilities ⟨[], []⟩ nvdFailing "T" "cpe:2.3:a:v:p" =
        (.error "Temporary failure", ⟨[], []⟩, 1) :=
  ⟨rfl, rfl,
   c2_error_leaves_store_unchanged ⟨[], []⟩ nvdFailing "T" "cpe:2.3:a:v:p"
     "Temporary failure" rfl rfl⟩

theorem c3_witness :
    ((can_make_request (afterCalls 5 0) 61).1 = true ↔ (0 : Int) + 60 < 61)
    ∧ (can_make_request (initLimiter true) 0).1 = true :=
  ⟨(c3_minute_window_and_paid_tier 0 61).1,
   (c3_minute_window_and_paid_tier 0 61).2 (initLimiter true) 0 rfl⟩

theorem getKey_setKey_self (cache : CpeCache) (k : String) (v : List CpeEntry) :
    getKey (setKey cache k v) k = v := by
  induction cache with
  | nil => simp [setKey, getKey, List.find?]
  | cons p rest ih =>
    obtain ⟨k', v'⟩ := p
    by_cases h : (k' == k) = true
    · simp [setKey, getKey, List.find?, h]
    · simp only [setKey, h, if_false, Bool.false_eq_true]
      simpa [getKey, List.find?, h] using ih

theorem getKey_setKey_of_ne (cache : CpeCache) (k : String) (v : List CpeEntry)
    (j : String) (hne : (k == j) = false) :
    getKey (setKey cache k v) j = getKey cache j := by
  induction cache with
  | nil => simp [setKey, getKey, List.find?, hne]
  | cons p rest ih =>
    obtain ⟨k', v'⟩ := p
    by_cases h : (k' == k) = true
    · have hk : k' = k := by simpa using h
      subst hk
      simp [setKey, getKey, List.find?, hne]
    · by_cases hj : (k' == j) = true <;>
        simp only [setKey, h, if_false, Bool.false_eq_true] <;>
        simpa [getKey, List.find?, hj] using ih

theorem getKey_mark_cpe_invalid (cache : CpeCache) (c k : String) :
    getKey (mark_cpe_invalid cache c) k = (getKey cache k).map (invalidateEntry c) := by
  induction cache with
  | nil => simp [mark_cpe_invalid, getKey, List.find?]
  | cons p rest ih =>
    obtain ⟨k', v'⟩ := p
    by_cases h : (k' == k) = true <;>
      simp only [mark_cpe_invalid, List.map_cons] <;>
      simpa [getKey, List.find?, h, mark_cpe_invalid] using ih

/-- C6 counterexample: a malformed persisted snapshot is not treated like a
missing one — the JSON decode error propagates out of `get_new_packages`
and fails the scan instead of returning the current snapshot as new. -/
theorem c6_counterexample_malformed_raises :
    get_new_packages SnapshotRead.malformedJson ["curl-7.85.0"]
      = .error "json.decoder.JSONDecodeError" := rfl

/-- C6 amended: when no previous snapshot file exists the entire current
snapshot is returned as new with no removed items (first-run policy), but
malformed persisted snapshot data raises and fails the scan — only
`FileNotFoundError` is caught by `get_new_packages`. -/
theorem c6_amended_first_run_for_missing_file_only (current : List String) :
    get_new_packages SnapshotRead.fileMissing current = .ok (current, [])
    ∧ ∃ e, get_new_packages SnapshotRead.malformedJson current = .error e :=
  ⟨rfl, "json.decoder.JSONDecodeError", rfl⟩

/-- C7 counterexample: entries do not only accumulate — after storing one
CPE for `curl` and then storing a different list for `curl`, the first CPE
string has been deleted from the component's cache entry. -/
theorem c7_counterexample_store_deletes_history :
    "cpe:2.3:a:curl:curl:7.85.0:*:*:*:*:*:*:*" ∈
      get_cached_cpes
        (cache_cpes [] [("curl", ["cpe:2.3:a:curl:curl:7.85.0:*:*:*:*:*:*:*"])]) "curl"
    ∧ "cpe:2.3:a:curl:curl:7.85.0:*:*:*:*:*:*:*" ∉
      get_cached_cpes
        (cache_cpes (cache_cpes [] [("curl", ["cpe:2.3:a:curl:curl:7.85.0:*:*:*:*:*:*:*"])])
          [("curl", ["cpe:2.3:a:curl:curl:7.86.0:*:*:*:*:*:*:*"])]) "curl" := by
  decide

/-- C7 amended: a `cache_cpes` store for a component replaces that
component's entry set wholesale — every supplied CPE is recorded with
valid true, and previously recorded CPE strings absent from the new list
are deleted (last full write wins per component) — while the entries of
every other component are left unchanged. -/
theorem c7_amended_store_replaces_wholesale (cache : CpeCache) (package : String)
    (cpes : List String) (j : String) (hne : (package == j) = false) :
    getKey (cache_cpes cache [(package, cpes)]) package
      = cpes.map (fun c => CpeEntry.objEntry (some c) (some true))
    ∧ getKey (cache_cpes cache [(package, cpes)]) j = getKey cache j := by
  constructor
  · simpa [cache_cpes] using
      getKey_setKey_self cache package
        (cpes.map (fun c => CpeEntry.objEntry (some c) (some true)))
  · simpa [cache_cpes] using
      getKey_setKey_of_ne cache package
        (cpes.map (fun c => CpeEntry.objEntry (some c) (some true))) j hne

theorem c7_witness :
    ("curl" == "openssl") = false
    ∧ (getKey (cache_cpes [] [("curl", ["cpe:2.3:a:curl:curl:7.85.0:*:*:*:*:*:*:*"])]) "curl"
        = ["cpe:2.3:a:curl:curl:7.85.0:*:*:*:*:*:*:*"].map
            (fun c => CpeEntry.objEntry (some c) (some true))
       ∧ getKey (cache_cpes [] [("curl", ["cpe:2.3:a:curl:curl:7.85.0:*:*:*:*:*:*:*"])]) "openssl"
        = getKey [] "openssl") :=
  ⟨rfl, c7_amended_store_replaces_wholesale [] "curl"
    ["cpe:2.3:a:curl:curl:7.85.0:*:*:*:*:*:*:*"] "openssl" rfl⟩

/-- C8 counterexample: invalidation does not reach legacy bare-string
entries — invalidating the very CPE stored in bare-string form leaves the
cache unchanged, and lookup still returns that CPE as valid. -/
theorem c8_counterexample_bare_string_survives :
    mark_cpe_invalid [("curl", [CpeEntry.strEntry "cpe:2.3:a:curl:curl:7.85.0:*:*:*:*:*:*:*"])]
        "cpe:2.3:a:curl:curl:7.85.0:*:*:*:*:*:*:*"
      = [("curl", [CpeEntry.strEntry "cpe:2.3:a:curl:curl:7.85.0:*:*:*:*:*:*:*"])]
    ∧ get_cached_cpes
        (mark_cpe_invalid [("curl", [CpeEntry.strEntry "cpe:2.3:a:curl:curl:7.85.0:*:*:*:*:*:*:*"])]
          "cpe:2.3:a:curl:curl:7.85.0:*:*:*:*:*:*:*") "curl"
      = ["cpe:2.3:a:curl:curl:7.85.0:*:*:*:*:*:*:*"] := by
  decide

/-- C8 amended: invalidation is global across components but only on
object-form entries — `mark_cpe_invalid` rewrites every component's entry
list with one per-entry function, which flips valid to false exactly on
object entries whose cpe key equals the given string and leaves every
other entry, in particular every legacy bare-string entry, unchanged. -/
theorem c8_amended_global_on_object_entries (cache : CpeCache) (c k : String) :
    getKey (mark_cpe_invalid cache c) k = (getKey cache k).map (invalidateEntry c)
    ∧ (∀ v : Option Bool,
        invalidateEntry c (.objEntry (some c) v) = .objEntry (some c) (some false))
    ∧ (∀ s : String, invalidateEntry c (.strEntry s) = .strEntry s) := by
  refine ⟨getKey_mark_cpe_invalid cache c k, ?_, fun s => rfl⟩
  intro v
  simp [invalidateEntry]

/-- C9: for a component with no prior cache entry the generation filter
returns the component; after a store of one valid CPE for it, lookup
returns exactly that CPE and the generation filter returns nothing. -/
theorem c9_roundtrip_generation_filter (cache : CpeCache) (package cpe : String)
    (hfresh : getKey cache package = []) :
    get_packages_needing_cpe_generation cache [package] = [package]
    ∧ get_cached_cpes (cache_cpes cache [(package, [cpe])]) package = [cpe]
    ∧ get_packages_needing_cpe_generation (cache_cpes cache [(package, [cpe])]) [package] = [] := by
  have hstore : getKey (cache_cpes cache [(package, [cpe])]) package
      = [CpeEntry.objEntry (some cpe) (some true)] := by
    simpa [cache_cpes] using
      getKey_setKey_self cache package [CpeEntry.objEntry (some cpe) (some true)]
  refine ⟨?_, ?_, ?_⟩
  · simp [get_packages_needing_cpe_generation, get_cached_cpes, hfresh]
  · simp [get_cached_cpes, hstore]
  · simp [get_packages_needing_cpe_generation, get_cached_cpes, hstore]

theorem c9_witness :
    getKey [] "curl" = []
    ∧ (get_packages_needing_cpe_generation [] ["curl"] = ["curl"]
       ∧ get_cached_cpes
           (cache_cpes [] [("curl", ["cpe:2.3:a:curl:curl:7.85.0:*:*:*:*:*:*:*"])]) "curl"
         = ["cpe:2.3:a:curl:curl:7.85.0:*:*:*:*:*:*:*"]
       ∧ get_packages_needing_cpe_generation
           (cache_cpes [] [("curl", ["cpe:2.3:a:curl:curl:7.85.0:*:*:*:*:*:*:*"])]) ["curl"]
         = []) :=
  ⟨rfl, c9_roundtrip_generation_filter [] "curl"
    "cpe:2.3:a:curl:curl:7.85.0:*:*:*:*:*:*:*" rfl⟩

/-- C10: a store unconditionally re-validates — after invalidating a CPE
string and then storing it again for some component, that component's
entry carries valid true and lookup returns the CPE, for every starting
cache state. -/
theorem c10_store_revalidates (cache : CpeCache) (package cpe : String) :
    getKey (cache_cpes (mark_cpe_invalid cache cpe) [(package, [cpe])]) package
      = [CpeEntry.objEntry (some cpe) (some true)]
    ∧ get_cached_cpes (cache_cpes (mark_cpe_invalid cache cpe) [(package, [cpe])]) package
      = [cpe] := by
  have h : getKey (cache_cpes (mark_cpe_invalid cache cpe) [(package, [cpe])]) package
      = [CpeEntry.objEntry (some cpe) (some true)] := by
    simpa [cache_cpes] using
      getKey_setKey_self (mark_cpe_invalid cache cpe) package
        [CpeEntry.objEntry (some cpe) (some true)]
  exact ⟨h, by simp [get_cached_cpes, h]⟩
